import Mathlib

/-!
# Verification of the TaskStore data-access layer

Shallow embedding of `src/mcp/tools.py`: a per-user task CRUD module with
analytics and bulk operations, backed by a relational store.  The store is
modelled as an explicit list of task rows plus an id counter; each Python
function becomes a Lean function from the store (and its string arguments)
to the new store and the returned dictionary, with Python `raise` modelled
by `Except.error`.

Python `datetime` values are modelled by a six-field calendar record;
`datetime.strptime(s, "%Y-%m-%d")` is modelled by `parseDate`, including the
1-or-2-digit month/day acceptance and day-of-month validation of the real
parser, and `datetime.isoformat()` (with zero microseconds) by `isoformat`.
The analytics score `int(completed / total * 100)` is CPython binary64
float arithmetic; it is modelled bit-exactly by `pyScore` (`divB64` is IEEE
round-to-nearest-ties-to-even at 53 significant bits, applied to the
division and then to the product, followed by truncation toward zero).
Because of the double rounding this does NOT always agree with the exact
floor `completed * 100 / total`: the smallest divergence is 29 completed of
50 total, where the program returns 57 while the exact floor is 58.
-/

namespace TaskStore

/-- Model of a Python `datetime.datetime` (microseconds are always zero in
this program: parsed dates are midnight and timestamps are modelled to
second precision). -/
structure PyDateTime where
  year : Nat
  month : Nat
  day : Nat
  hour : Nat
  minute : Nat
  second : Nat
deriving DecidableEq, Repr

/-- Model of Python `ValueError`. -/
inductive PyErr where
  | valueError (msg : String)
deriving DecidableEq, Repr

/-- Zero-pad the decimal rendering of `n` to width `w` (Python `%04d` / `%02d`). -/
def padNat (w n : Nat) : String :=
  let s := toString n
  String.mk (List.replicate (w - s.length) '0') ++ s

/-- `datetime.isoformat()` for a datetime with zero microseconds:
`YYYY-MM-DDTHH:MM:SS`. -/
def isoformat (d : PyDateTime) : String :=
  padNat 4 d.year ++ "-" ++ padNat 2 d.month ++ "-" ++ padNat 2 d.day ++ "T"
    ++ padNat 2 d.hour ++ ":" ++ padNat 2 d.minute ++ ":" ++ padNat 2 d.second

/-- Split a character list at every `'-'` (model of the literal `-` separators
in the `%Y-%m-%d` format string). -/
def splitDash : List Char → List (List Char)
  | [] => [[]]
  | c :: cs =>
    if c = '-' then [] :: splitDash cs
    else
      match splitDash cs with
      | [] => [[c]]
      | p :: ps => (c :: p) :: ps

/-- Decimal value of a digit string. -/
def digitsToNat (cs : List Char) : Nat :=
  cs.foldl (fun acc c => acc * 10 + (c.toNat - 48)) 0

/-- Gregorian leap-year test used by `datetime`'s day-of-month validation. -/
def isLeap (y : Nat) : Bool :=
  (y % 4 == 0 && y % 100 != 0) || y % 400 == 0

/-- Days in a month, as validated by the `datetime` constructor. -/
def daysInMonth (y m : Nat) : Nat :=
  if m = 2 then (if isLeap y then 29 else 28)
  else if m = 4 ∨ m = 6 ∨ m = 9 ∨ m = 11 then 30
  else 31

/-- Model of `datetime.strptime(s, "%Y-%m-%d")`: `%Y` is exactly four digits,
`%m` and `%d` are one or two digits with values in range, the whole string
must be consumed, and the `datetime` constructor validates the day against
the month length (year 0 is rejected).  `none` models the `ValueError` that
the callers swallow. -/
def parseDate (s : String) : Option PyDateTime :=
  match splitDash s.toList with
  | [ys, ms, ds] =>
    if ys.length = 4 ∧ ys.all Char.isDigit
        ∧ 1 ≤ ms.length ∧ ms.length ≤ 2 ∧ ms.all Char.isDigit
        ∧ 1 ≤ ds.length ∧ ds.length ≤ 2 ∧ ds.all Char.isDigit then
      let y := digitsToNat ys
      let m := digitsToNat ms
      let d := digitsToNat ds
      if 1 ≤ y ∧ 1 ≤ m ∧ m ≤ 12 ∧ 1 ≤ d ∧ d ≤ daysInMonth y m then
        some ⟨y, m, d, 0, 0, 0⟩
      else none
    else none
  | _ => none

/-- One row of the task table (`models/task.py`); `created_at` and
`updated_at` are nullable timestamps, matching the `if t.created_at` guard in
the serializer. -/
structure Task where
  id : Nat
  user_id : String
  title : String
  description : Option String
  priority : String
  status : String
  due_date : Option PyDateTime
  tags : Option String
  created_at : Option PyDateTime
  updated_at : Option PyDateTime
deriving DecidableEq, Repr

/-- The relational store: the task table in insertion order plus the id
generator. -/
structure Store where
  tasks : List Task
  nextId : Nat
deriving DecidableEq, Repr

/-- Python truthiness of an `Optional[str]`: truthy iff present and
non-empty. -/
def truthyStr : Option String → Bool
  | none => false
  | some v => v != ""

/-- The `task` sub-dictionary returned by `add_task`. -/
structure TaskRef where
  id : String
  title : String
  status : String
deriving DecidableEq, Repr

/-- Return dictionary of `add_task`. -/
structure AddResult where
  status : String
  message : String
  task : TaskRef
deriving DecidableEq, Repr

/-- `add_task`: raises when `user_id` is falsy; best-effort-parses `due_date`
(a falsy `due_date` is not parsed at all, a parse failure is swallowed);
inserts a new `pending` task and reports success.  `now` models the
store-assigned creation timestamp. -/
def add_task (s : Store) (user_id title : String) (description : Option String)
    (priority : String) (due_date : Option String) (tags : Option String)
    (now : PyDateTime) : Except PyErr (Store × AddResult) :=
  if user_id = "" then Except.error (PyErr.valueError "user_id is required")
  else
    let parsed_date : Option PyDateTime :=
      match due_date with
      | none => none
      | some ds => if ds = "" then none else parseDate ds
    let task : Task :=
      { id := s.nextId, user_id := user_id, title := title,
        description := description, priority := priority,
        due_date := parsed_date, tags := tags, status := "pending",
        created_at := some now, updated_at := some now }
    Except.ok ({ tasks := s.tasks ++ [task], nextId := s.nextId + 1 },
      { status := "success", message := "Task '" ++ title ++ "' added.",
        task := { id := toString task.id, title := task.title,
                  status := task.status } })

/-- One serialized record of `list_tasks` output: exactly the seven keys
`id`, `title`, `description`, `priority`, `status`, `due_date`,
`created_at` built on lines 51-59 of the source. -/
structure TaskRecord where
  id : String
  title : String
  description : Option String
  priority : String
  status : String
  due_date : Option String
  created_at : Option String
deriving DecidableEq, Repr

/-- The serialization loop body of `list_tasks`: dates rendered as ISO
strings or null. -/
def serializeTask (t : Task) : TaskRecord :=
  { id := toString t.id, title := t.title, description := t.description,
    priority := t.priority, status := t.status,
    due_date := t.due_date.map isoformat,
    created_at := t.created_at.map isoformat }

/-- Return dictionary of `list_tasks`. -/
structure ListResult where
  status : String
  tasks : List TaskRecord
deriving DecidableEq, Repr

/-- `list_tasks`: raises when `user_id` is falsy; selects the user's rows,
applies the status filter unless the filter is falsy or the literal `"all"`,
and serializes. -/
def list_tasks (s : Store) (user_id : String) (status : Option String) :
    Except PyErr ListResult :=
  if user_id = "" then Except.error (PyErr.valueError "user_id is required")
  else
    let ts := s.tasks.filter (fun t => t.user_id == user_id)
    let filtered :=
      match status with
      | none => ts
      | some st =>
        if st != "" && st != "all" then ts.filter (fun t => t.status == st)
        else ts
    Except.ok { status := "success", tasks := filtered.map serializeTask }

/-- A `{status, message}` return dictionary. -/
structure StatusMsg where
  status : String
  message : String
deriving DecidableEq, Repr

/-- `delete_task`: raises when `user_id` or `task_title` is falsy; returns a
structured error when no row matches; otherwise deletes the first matching
row (`.first()` then `session.delete`). -/
def delete_task (s : Store) (user_id task_title : String) :
    Except PyErr (Store × StatusMsg) :=
  if user_id = "" ∨ task_title = "" then
    Except.error (PyErr.valueError "Missing required fields")
  else
    match s.tasks.find? (fun t => t.user_id == user_id && t.title == task_title) with
    | none => Except.ok (s, { status := "error", message := "Task not found." })
    | some _ =>
      Except.ok
        ({ s with tasks :=
            s.tasks.eraseP (fun t => t.user_id == user_id && t.title == task_title) },
         { status := "success",
           message := "Task '" ++ task_title ++ "' deleted." })

/-- Return value of `update_task_by_title`: the error dictionary has no
`task` key, the success dictionary carries `task.title`. -/
inductive UpdateResult where
  | error (message : String)
  | success (message : String) (taskTitle : String)
deriving DecidableEq, Repr

/-- The `status` key of an `update_task_by_title` return dictionary. -/
def UpdateResult.status : UpdateResult → String
  | .error _ => "error"
  | .success _ _ => "success"

/-- `if arg: task.field = arg` for a `str`-typed column. -/
def patchStr (old : String) (arg : Option String) : String :=
  match arg with
  | some v => if v != "" then v else old
  | none => old

/-- `if arg: task.field = arg` for an `Optional[str]` column. -/
def patchOptStr (old : Option String) (arg : Option String) : Option String :=
  match arg with
  | some v => if v != "" then some v else old
  | none => old

/-- `if due_date: try: task.due_date = strptime(due_date, "%Y-%m-%d")
except: pass` — a truthy argument is parsed, and only a successful parse
overwrites. -/
def patchDate (old : Option PyDateTime) (arg : Option String) : Option PyDateTime :=
  match arg with
  | some v =>
    if v != "" then
      match parseDate v with
      | some d => some d
      | none => old
    else old
  | none => old

/-- Lines 90-99 of the source: the per-field truthiness-guarded overwrites
(each guard touches a distinct column, so they are rendered as independent
field updates) followed by the unconditional `updated_at = utcnow()`. -/
def applyPatch (t : Task)
    (new_title description priority status due_date tags : Option String)
    (now : PyDateTime) : Task :=
  { t with
    title := patchStr t.title new_title,
    description := patchOptStr t.description description,
    priority := patchStr t.priority priority,
    status := patchStr t.status status,
    tags := patchOptStr t.tags tags,
    due_date := patchDate t.due_date due_date,
    updated_at := some now }

/-- Replace the first element satisfying `p` (the in-place mutation of the
row that `.first()` returned, which keeps its position in the table). -/
def replaceFirst (p : α → Bool) (a : α) : List α → List α
  | [] => []
  | x :: xs => if p x then a :: xs else x :: replaceFirst p a xs

/-- `update_task_by_title`: returns (never raises) a structured error when
`user_id` or `current_title` is falsy and when no row matches; otherwise
patches the first matching row and reports success with the resulting
title.  `now` models `datetime.utcnow()`. -/
def update_task_by_title (s : Store) (user_id current_title : String)
    (new_title description priority status due_date tags : Option String)
    (now : PyDateTime) : Store × UpdateResult :=
  if user_id = "" ∨ current_title = "" then
    (s, UpdateResult.error "Missing fields")
  else
    match s.tasks.find? (fun t => t.user_id == user_id && t.title == current_title) with
    | none => (s, UpdateResult.error "Task not found.")
    | some task =>
      let task2 := applyPatch task new_title description priority status due_date tags now
      let newTasks :=
        replaceFirst (fun t => t.user_id == user_id && t.title == current_title)
          task2 s.tasks
      ({ s with tasks := newTasks },
       UpdateResult.success ("Task '" ++ current_title ++ "' updated.") task2.title)

/-- Number of binary digits of `n` (`⌊log₂ n⌋ + 1` for positive `n`),
computed with a structural fuel so that the kernel can evaluate it. -/
def bitLenAux : Nat → Nat → Nat
  | 0, _ => 0
  | fuel + 1, n => if n = 0 then 0 else bitLenAux fuel (n / 2) + 1

/-- Number of binary digits of `n`. -/
def bitLen (n : Nat) : Nat := bitLenAux n n

/-- IEEE-754 binary64 rounding of the positive rational `a / b`
(round-to-nearest, ties-to-even, 53 significant bits), returned as a
significand-exponent pair `(n, e)` with value `n * 2 ^ e`.  Overflow and
gradual underflow are not modelled; for the score computation the operands
`completed / total ≤ 1` and the scale factor 100 keep every intermediate in
the normal range unless a user owns at least `2 ^ 1022` tasks. -/
def divB64 (a b : Nat) : Nat × Int :=
  let ka : Int := (bitLen a : Int) - (bitLen b : Int)
  let geTwoPowKa : Bool :=
    if 0 ≤ ka then decide (b * 2 ^ ka.toNat ≤ a) else decide (b ≤ a * 2 ^ (-ka).toNat)
  let k : Int := if geTwoPowKa then ka else ka - 1
  let s : Int := 52 - k
  let num : Nat := if 0 ≤ s then a * 2 ^ s.toNat else a
  let den : Nat := if 0 ≤ s then b else b * 2 ^ (-s).toNat
  let n0 := num / den
  let r := num % den
  let n : Nat :=
    if den < 2 * r then n0 + 1
    else if 2 * r < den then n0
    else if n0 % 2 = 0 then n0 else n0 + 1
  (n, k - 52)

/-- Bit-exact model of CPython `int(c / t * 100)` for `c ≥ 0`, `t > 0`:
the true division `c / t` is rounded to binary64, the product with the
exact float `100` is rounded to binary64 again, and `int()` truncates
toward zero.  Validated against CPython exhaustively for `c ≤ t ≤ 300` and
on random large pairs; e.g. `pyScore 29 50 = 57` while the exact floor is
`58`, reproducing `int(29 / 50 * 100) == 57`. -/
def pyScore (c t : Nat) : Nat :=
  if c = 0 then 0
  else
    let p := divB64 c t
    let q := if 0 ≤ p.2 then divB64 (100 * p.1 * 2 ^ p.2.toNat) 1
             else divB64 (100 * p.1) (2 ^ (-p.2).toNat)
    if 0 ≤ q.2 then q.1 * 2 ^ q.2.toNat else q.1 / 2 ^ (-q.2).toNat

/-- The `analytics` sub-dictionary of `get_analytics`. -/
structure Analytics where
  tasks_total : Nat
  tasks_completed : Nat
  tasks_pending : Nat
  productivity_score : Nat
deriving DecidableEq, Repr

/-- Return dictionary of `get_analytics`. -/
structure AnalyticsResult where
  status : String
  analytics : Analytics
deriving DecidableEq, Repr

/-- `get_analytics`: raises when `user_id` is falsy; counts the user's rows,
the completed ones and the pending ones; the score
`int((completed / total * 100) if total > 0 else 0)` is evaluated in
CPython binary64 floats, modelled bit-exactly by `pyScore`. -/
def get_analytics (s : Store) (user_id : String) :
    Except PyErr AnalyticsResult :=
  if user_id = "" then Except.error (PyErr.valueError "user_id is required")
  else
    let tasks := s.tasks.filter (fun t => t.user_id == user_id)
    let total := tasks.length
    let completed := (tasks.filter (fun t => t.status == "completed")).length
    let pending := (tasks.filter (fun t => t.status == "pending")).length
    let score := if total > 0 then pyScore completed total else 0
    Except.ok
      { status := "success",
        analytics :=
          { tasks_total := total, tasks_completed := completed,
            tasks_pending := pending, productivity_score := score } }

/-- `delete_all_tasks`: raises when `user_id` is falsy; deletes every row of
the user (the loop `for t in tasks: session.delete(t)` removes exactly the
selected rows) and reports the count. -/
def delete_all_tasks (s : Store) (user_id : String) :
    Except PyErr (Store × StatusMsg) :=
  if user_id = "" then Except.error (PyErr.valueError "user_id is required")
  else
    let count := (s.tasks.filter (fun t => t.user_id == user_id)).length
    Except.ok
      ({ s with tasks := s.tasks.filter (fun t => !(t.user_id == user_id)) },
       { status := "success",
         message := "Deleted " ++ toString count ++ " tasks." })

/-- `complete_all_tasks`: raises when `user_id` is falsy; sets
`status = "completed"` on every row of the user. -/
def complete_all_tasks (s : Store) (user_id : String) :
    Except PyErr (Store × StatusMsg) :=
  if user_id = "" then Except.error (PyErr.valueError "user_id is required")
  else
    let count := (s.tasks.filter (fun t => t.user_id == user_id)).length
    let newTasks := s.tasks.map
      (fun t => if t.user_id == user_id then { t with status := "completed" } else t)
    Except.ok
      ({ s with tasks := newTasks },
       { status := "success",
         message := "Marked " ++ toString count ++ " tasks completed." })

/-- `mark_all_tasks_incomplete`: raises when `user_id` is falsy; sets
`status = "pending"` on every row of the user. -/
def mark_all_tasks_incomplete (s : Store) (user_id : String) :
    Except PyErr (Store × StatusMsg) :=
  if user_id = "" then Except.error (PyErr.valueError "user_id is required")
  else
    let count := (s.tasks.filter (fun t => t.user_id == user_id)).length
    let newTasks := s.tasks.map
      (fun t => if t.user_id == user_id then { t with status := "pending" } else t)
    Except.ok
      ({ s with tasks := newTasks },
       { status := "success",
         message := "Marked " ++ toString count ++ " tasks pending." })

/-- Sample data for witness instantiations. -/
def sampleNow : PyDateTime := ⟨2024, 6, 1, 12, 30, 0⟩

/-- A sample stored task of user `u1`. -/
def sampleTask : Task :=
  { id := 0, user_id := "u1", title := "groceries",
    description := some "buy milk", priority := "medium", status := "pending",
    due_date := none, tags := none,
    created_at := some sampleNow, updated_at := some sampleNow }

/-- A sample stored task of user `u2`. -/
def sampleTask2 : Task :=
  { id := 1, user_id := "u2", title := "laundry",
    description := none, priority := "high", status := "completed",
    due_date := none, tags := some "home",
    created_at := some sampleNow, updated_at := some sampleNow }

/-- A sample store with one task per user. -/
def sampleStore : Store := { tasks := [sampleTask, sampleTask2], nextId := 2 }

/-- The store after the row addressed by `(uid, ct)` is replaced by `t2`
(abbreviation used to state the effect of a successful update). -/
def patchedStore (s : Store) (uid ct : String) (t2 : Task) : Store :=
  { s with tasks :=
      replaceFirst (fun x => x.user_id == uid && x.title == ct) t2 s.tasks }

/-- The row that `add_task` inserts, given the already-parsed due date
(abbreviation used to state the effect of a successful create). -/
def insertedTask (s : Store) (uid title : String) (d : Option String)
    (p : String) (pd : Option PyDateTime) (tg : Option String)
    (now : PyDateTime) : Task :=
  { id := s.nextId, user_id := uid, title := title, description := d,
    priority := p, due_date := pd, tags := tg, status := "pending",
    created_at := some now, updated_at := some now }

/-- A sample task with a free-form status (possible because Update never
validates the status string). -/
def oddTask : Task :=
  { id := 2, user_id := "u1", title := "odd", description := none,
    priority := "low", status := "archived", due_date := none, tags := none,
    created_at := some sampleNow, updated_at := none }

/-- A store in which user `u1` owns three tasks: one pending, one
completed, one with a free-form status. -/
def analyticsStore : Store :=
  { tasks := [sampleTask, { sampleTask2 with user_id := "u1" }, oddTask],
    nextId := 3 }

/-- Task `i` of the 50-task store below: the first 29 are completed. -/
def slipTask (i : Nat) : Task :=
  { id := i, user_id := "u1", title := "t", description := none,
    priority := "medium", status := if i < 29 then "completed" else "pending",
    due_date := none, tags := none, created_at := none, updated_at := none }

/-- A store where user `u1` owns 50 tasks of which 29 are completed — the
smallest task set on which CPython's float evaluation of the productivity
score (57) differs from the exact floor of `completed / total * 100`
(58). -/
def floatSlipStore : Store :=
  { tasks := (List.range 50).map slipTask, nextId := 50 }

/-! ## Helper lemmas -/

/-- Filtering twice is filtering by the conjunction. -/
theorem filter_filter_comb {α : Type} (p q : α → Bool) (l : List α) :
    (l.filter p).filter q = l.filter (fun a => p a && q a) := by
  induction l with
  | nil => rfl
  | cons a l ih =>
    cases hp : p a <;> cases hq : q a <;>
      simp [List.filter_cons, hp, hq, ih]

/-- Nothing satisfying `p` survives a filter by `!p`. -/
theorem filter_not_self {α : Type} (p : α → Bool) (l : List α) :
    (l.filter (fun a => !(p a))).filter p = [] := by
  induction l with
  | nil => rfl
  | cons a l ih =>
    cases hp : p a <;> simp [List.filter_cons, hp, ih]

/-- Filtering by `q` is unaffected by first dropping the `p`-elements when
`q` never holds together with `p`. -/
theorem filter_not_of_excl {α : Type} (p q : α → Bool) (l : List α)
    (hpq : ∀ a, q a = true → p a = false) :
    (l.filter (fun a => !(p a))).filter q = l.filter q := by
  induction l with
  | nil => rfl
  | cons a l ih =>
    cases hq : q a
    · cases hp : p a <;> simp [List.filter_cons, hp, hq, ih]
    · have hp : p a = false := hpq a hq
      simp [List.filter_cons, hp, hq, ih]

/-- A list splits into the `p`-part, the `q`-part and the rest when `p` and
`q` are mutually exclusive. -/
theorem length_filter_partition {α : Type} (p q : α → Bool) (l : List α)
    (hpq : ∀ a, p a = true → q a = false) :
    l.length = (l.filter p).length + (l.filter q).length
      + (l.filter (fun a => !(p a) && !(q a))).length := by
  induction l with
  | nil => rfl
  | cons a l ih =>
    cases hp : p a
    · cases hq : q a <;> simp [List.filter_cons, hp, hq, ih] <;> omega
    · have hq : q a = false := hpq a hp
      simp [List.filter_cons, hp, hq, ih]
      omega

/-- Natural division by `t` after scaling by 100 is the floor of the exact
rational `c / t * 100`; this is the meaning of `int(c / t * 100)` on
non-negative exact operands. -/
theorem score_eq_floor (c t : Nat) :
    c * 100 / t = ⌊(c : ℚ) / (t : ℚ) * 100⌋₊ := by
  rw [div_mul_eq_mul_div]
  rw [show ((c : ℚ) * 100) = ((c * 100 : ℕ) : ℚ) by push_cast; ring]
  rw [Nat.floor_div_eq_div]

/-- A successful parse always yields a midnight timestamp. -/
theorem parseDate_time_zero (str : String) (dte : PyDateTime)
    (h : parseDate str = some dte) :
    dte.hour = 0 ∧ dte.minute = 0 ∧ dte.second = 0 := by
  unfold parseDate at h
  split at h
  · dsimp only at h
    split at h
    · split at h
      · cases h
        exact ⟨rfl, rfl, rfl⟩
      · cases h
    · cases h
  · cases h

/-- Behaviour of `update_task_by_title` when the lookup succeeds: the found
row is patched in place and success is reported with the resulting title. -/
theorem update_found (s : Store) (uid ct : String)
    (nt d p st dd tg : Option String) (now : PyDateTime) (t : Task)
    (huid : uid ≠ "") (hct : ct ≠ "")
    (hfind : s.tasks.find? (fun x => x.user_id == uid && x.title == ct) = some t) :
    update_task_by_title s uid ct nt d p st dd tg now
      = (patchedStore s uid ct (applyPatch t nt d p st dd tg now),
         UpdateResult.success ("Task '" ++ ct ++ "' updated.")
           (applyPatch t nt d p st dd tg now).title) := by
  unfold update_task_by_title patchedStore
  rw [if_neg (by simp [huid, hct]), hfind]

/-! ## Claims -/

/-- C1: Delete raises a `ValueError` when `user_id` or `task_title` is
missing/empty but returns a plain `{status := "error"}` value when no task
matches; Update instead returns a structured error value in both cases
(missing arguments and no match) and never raises. -/
theorem C1_error_channels (s : Store) (uid title : String)
    (nt d p st dd tg : Option String) (now : PyDateTime) :
    ((uid = "" ∨ title = "") →
      delete_task s uid title
        = Except.error (PyErr.valueError "Missing required fields") ∧
      update_task_by_title s uid title nt d p st dd tg now
        = (s, UpdateResult.error "Missing fields")) ∧
    (uid ≠ "" → title ≠ "" →
      s.tasks.find? (fun t => t.user_id == uid && t.title == title) = none →
      delete_task s uid title
        = Except.ok (s, { status := "error", message := "Task not found." }) ∧
      update_task_by_title s uid title nt d p st dd tg now
        = (s, UpdateResult.error "Task not found.")) := by
  constructor
  · intro h
    constructor
    · unfold delete_task
      rw [if_pos h]
    · unfold update_task_by_title
      rw [if_pos h]
  · intro h1 h2 hfind
    constructor
    · unfold delete_task
      rw [if_neg (by simp [h1, h2]), hfind]
    · unfold update_task_by_title
      rw [if_neg (by simp [h1, h2]), hfind]

/-- Witness for C1 at a concrete store: missing arguments and a missing
task exercise both error channels. -/
theorem C1_error_channels_witness :
    delete_task sampleStore "" "x" = Except.error (PyErr.valueError "Missing required fields") ∧
    update_task_by_title sampleStore "" "x" none none none none none none sampleNow
      = (sampleStore, UpdateResult.error "Missing fields") ∧
    delete_task sampleStore "u1" "no-such-task"
      = Except.ok (sampleStore, { status := "error", message := "Task not found." }) ∧
    update_task_by_title sampleStore "u1" "no-such-task" none none none none none none sampleNow
      = (sampleStore, UpdateResult.error "Task not found.") := by
  have h1 := (C1_error_channels sampleStore "" "x" none none none none none none sampleNow).1
    (Or.inl rfl)
  have h2 := (C1_error_channels sampleStore "u1" "no-such-task"
    none none none none none none sampleNow).2 (by decide) (by decide) (by decide)
  exact ⟨h1.1, h1.2, h2.1, h2.2⟩

/-- C5: BulkDelete removes exactly the calling user's tasks — afterwards
the user owns zero tasks, and every other user's task list (in order) is
unchanged. -/
theorem C5_bulk_delete_isolation (s : Store) (uid : String) (h : uid ≠ "") :
    ∃ s' r, delete_all_tasks s uid = Except.ok (s', r) ∧
      r.status = "success" ∧
      s'.tasks.filter (fun t => t.user_id == uid) = [] ∧
      ∀ v, v ≠ uid →
        s'.tasks.filter (fun t => t.user_id == v)
          = s.tasks.filter (fun t => t.user_id == v) := by
  unfold delete_all_tasks
  rw [if_neg h]
  refine ⟨_, _, rfl, rfl, ?_, ?_⟩
  · exact filter_not_self (fun t => t.user_id == uid) s.tasks
  · intro v hv
    refine filter_not_of_excl _ _ _ ?_
    intro a ha
    have : a.user_id = v := by simpa using ha
    simp [this, hv]

/-- Witness for C5: deleting all of `u1`'s tasks leaves `u2`'s task in
place. -/
theorem C5_bulk_delete_isolation_witness :
    ∃ s' r, delete_all_tasks sampleStore "u1" = Except.ok (s', r) ∧
      r.status = "success" ∧
      s'.tasks.filter (fun t => t.user_id == "u1") = [] ∧
      s'.tasks.filter (fun t => t.user_id == "u2")
        = sampleStore.tasks.filter (fun t => t.user_id == "u2") := by
  obtain ⟨s', r, h1, h2, h3, h4⟩ :=
    C5_bulk_delete_isolation sampleStore "u1" (by decide)
  exact ⟨s', r, h1, h2, h3, h4 "u2" (by decide)⟩

/-- C6: List with `status = "all"` behaves exactly like List with the
filter omitted (all of the user's tasks, unfiltered), while any other
non-empty status value selects exactly the user's tasks with that
status. -/
theorem C6_list_status_filter (s : Store) (uid : String) (h : uid ≠ "") :
    list_tasks s uid (some "all") = list_tasks s uid none ∧
    list_tasks s uid none
      = Except.ok ⟨"success",
          (s.tasks.filter (fun t => t.user_id == uid)).map serializeTask⟩ ∧
    ∀ st, st ≠ "" → st ≠ "all" →
      list_tasks s uid (some st)
        = Except.ok ⟨"success",
            (s.tasks.filter
              (fun t => t.user_id == uid && t.status == st)).map serializeTask⟩ := by
  refine ⟨?_, ?_, ?_⟩
  · unfold list_tasks
    rw [if_neg h, if_neg h]
    rfl
  · unfold list_tasks
    rw [if_neg h]
  · intro st hne hall
    unfold list_tasks
    rw [if_neg h]
    dsimp only
    rw [if_pos (by simp [hne, hall]), filter_filter_comb]

/-- Witness for C6: on the sample store, `"all"` and no filter agree, and
filtering by `"completed"` returns exactly the completed task. -/
theorem C6_list_status_filter_witness :
    list_tasks sampleStore "u2" (some "all") = list_tasks sampleStore "u2" none ∧
    list_tasks sampleStore "u2" (some "completed")
      = Except.ok ⟨"success",
          (sampleStore.tasks.filter
            (fun t => t.user_id == "u2" && t.status == "completed")).map serializeTask⟩ := by
  obtain ⟨h1, _, h3⟩ := C6_list_status_filter sampleStore "u2" (by decide)
  exact ⟨h1, h3 "completed" (by decide) (by decide)⟩

/-- C2 (amended): Analytics counts the user's tasks, the completed ones and
the pending ones; any other status counts toward the total but toward
neither bucket; when the total is positive the score is the CPython
binary64 evaluation of `int(completed / total * 100)` (`pyScore`) — which
equals the exact floor except where the double rounding lands just below an
integer — and `0` when the user has no tasks. -/
theorem C2_analytics_counts (s : Store) (uid : String) (h : uid ≠ "") :
    ∃ r, get_analytics s uid = Except.ok r ∧
      r.status = "success" ∧
      r.analytics.tasks_total = (s.tasks.filter (fun t => t.user_id == uid)).length ∧
      r.analytics.tasks_completed
        = ((s.tasks.filter (fun t => t.user_id == uid)).filter
            (fun t => t.status == "completed")).length ∧
      r.analytics.tasks_pending
        = ((s.tasks.filter (fun t => t.user_id == uid)).filter
            (fun t => t.status == "pending")).length ∧
      r.analytics.tasks_total
        = r.analytics.tasks_completed + r.analytics.tasks_pending
          + ((s.tasks.filter (fun t => t.user_id == uid)).filter
              (fun t => !(t.status == "completed") && !(t.status == "pending"))).length ∧
      (0 < r.analytics.tasks_total →
        r.analytics.productivity_score
          = pyScore r.analytics.tasks_completed r.analytics.tasks_total) ∧
      (r.analytics.tasks_total = 0 → r.analytics.productivity_score = 0) := by
  unfold get_analytics
  rw [if_neg h]
  refine ⟨_, rfl, rfl, rfl, rfl, rfl, ?_, ?_, ?_⟩
  · refine length_filter_partition _ _ _ ?_
    intro a ha
    have : a.status = "completed" := by simpa using ha
    simp [this]
  · intro hpos
    show (if _ then _ else _) = _
    split
    · rfl
    · exact absurd hpos (by assumption)
  · intro hzero
    have hz : (s.tasks.filter (fun t => t.user_id == uid)).length = 0 := hzero
    show (if _ then _ else _) = _
    split
    · rename_i hpos2
      omega
    · rfl

/-- C2 counterexample: on the reachable store where user `u1` owns 50 tasks
of which 29 are completed, the program's score is 57 (CPython float
truncation: `int(29 / 50 * 100) == 57`), while the spec formula
`floor(completed / total * 100)` gives 58 — so the claimed floor equation
is false at this input. -/
theorem C2_analytics_score_counterexample :
    get_analytics floatSlipStore "u1"
      = Except.ok (AnalyticsResult.mk "success" (Analytics.mk 50 29 21 57)) ∧
    ⌊((29 : ℕ) : ℚ) / ((50 : ℕ) : ℚ) * 100⌋₊ = 58 ∧
    (57 : ℕ) ≠ 58 := by
  refine ⟨by rfl, ?_, by decide⟩
  rw [← score_eq_floor 29 50]

/-- Witness for C2: a user with three tasks (one completed, one pending,
one with a free-form status) gets total 3, completed 1, pending 1 and the
floored score 33. -/
theorem C2_analytics_counts_witness :
    ∃ r, get_analytics analyticsStore "u1" = Except.ok r ∧
      r.analytics.tasks_total = 3 ∧
      r.analytics.tasks_completed = 1 ∧
      r.analytics.tasks_pending = 1 ∧
      r.analytics.productivity_score = 33 := by
  obtain ⟨r, heq, -, ht, hc, hp, -, hposs, -⟩ :=
    C2_analytics_counts analyticsStore "u1" (by decide)
  have h3 : r.analytics.tasks_total = 3 := by rw [ht]; rfl
  have h1 : r.analytics.tasks_completed = 1 := by rw [hc]; rfl
  have hp1 : r.analytics.tasks_pending = 1 := by rw [hp]; rfl
  have hsc := hposs (by omega)
  rw [h3, h1] at hsc
  exact ⟨r, heq, h3, h1, hp1, by rw [hsc]; decide⟩

/-- C3: on a found task, Update applies exactly the truthiness-guarded
patch: every optional field supplied as the empty string (or omitted) keeps
its prior value, and every field supplied with a non-empty string is
overwritten with it. -/
theorem C3_empty_string_ignored (s : Store) (uid ct : String)
    (nt d p st dd tg : Option String) (now : PyDateTime) (t : Task)
    (huid : uid ≠ "") (hct : ct ≠ "")
    (hfind : s.tasks.find? (fun x => x.user_id == uid && x.title == ct) = some t) :
    update_task_by_title s uid ct nt d p st dd tg now
      = (patchedStore s uid ct (applyPatch t nt d p st dd tg now),
         UpdateResult.success ("Task '" ++ ct ++ "' updated.")
           (applyPatch t nt d p st dd tg now).title) ∧
    ((nt = none ∨ nt = some "") → (applyPatch t nt d p st dd tg now).title = t.title) ∧
    ((d = none ∨ d = some "") → (applyPatch t nt d p st dd tg now).description = t.description) ∧
    ((p = none ∨ p = some "") → (applyPatch t nt d p st dd tg now).priority = t.priority) ∧
    ((st = none ∨ st = some "") → (applyPatch t nt d p st dd tg now).status = t.status) ∧
    ((tg = none ∨ tg = some "") → (applyPatch t nt d p st dd tg now).tags = t.tags) ∧
    ((dd = none ∨ dd = some "") → (applyPatch t nt d p st dd tg now).due_date = t.due_date) ∧
    (∀ v, v ≠ "" → (applyPatch t (some v) d p st dd tg now).title = v) ∧
    (∀ v, v ≠ "" → (applyPatch t nt (some v) p st dd tg now).description = some v) ∧
    (∀ v, v ≠ "" → (applyPatch t nt d (some v) st dd tg now).priority = v) ∧
    (∀ v, v ≠ "" → (applyPatch t nt d p (some v) dd tg now).status = v) ∧
    (∀ v, v ≠ "" → (applyPatch t nt d p st dd (some v) now).tags = some v) := by
  refine ⟨update_found s uid ct nt d p st dd tg now t huid hct hfind,
    ?_, ?_, ?_, ?_, ?_, ?_, ?_, ?_, ?_, ?_, ?_⟩
  · rintro (rfl | rfl) <;> simp [applyPatch, patchStr]
  · rintro (rfl | rfl) <;> simp [applyPatch, patchOptStr]
  · rintro (rfl | rfl) <;> simp [applyPatch, patchStr]
  · rintro (rfl | rfl) <;> simp [applyPatch, patchStr]
  · rintro (rfl | rfl) <;> simp [applyPatch, patchOptStr]
  · rintro (rfl | rfl) <;> simp [applyPatch, patchDate]
  · intro v hv
    simp [applyPatch, patchStr, hv]
  · intro v hv
    simp [applyPatch, patchOptStr, hv]
  · intro v hv
    simp [applyPatch, patchStr, hv]
  · intro v hv
    simp [applyPatch, patchStr, hv]
  · intro v hv
    simp [applyPatch, patchOptStr, hv]

/-- Witness for C3: updating the sample task with `description = ""` keeps
the prior description while a non-empty priority is overwritten. -/
theorem C3_empty_string_ignored_witness :
    (applyPatch sampleTask none (some "") (some "high") none none none sampleNow).description
      = some "buy milk" ∧
    (applyPatch sampleTask none (some "") (some "high") none none none sampleNow).priority
      = "high" ∧
    update_task_by_title sampleStore "u1" "groceries"
        none (some "") (some "high") none none none sampleNow
      = (patchedStore sampleStore "u1" "groceries"
           (applyPatch sampleTask none (some "") (some "high") none none none sampleNow),
         UpdateResult.success "Task 'groceries' updated."
           (applyPatch sampleTask none (some "") (some "high") none none none sampleNow).title) := by
  obtain ⟨he, -, hd, -, -, -, -, -, -, hp, -, -⟩ := C3_empty_string_ignored sampleStore "u1" "groceries"
    none (some "") (some "high") none none none sampleNow sampleTask
    (by decide) (by decide) (by decide)
  refine ⟨?_, hp "high" (by decide), he⟩
  rw [hd (Or.inr rfl)]
  rfl

/-- C4: a malformed due-date string is never surfaced: Create still
succeeds and stores a null due date, and Update leaves the existing due
date untouched while behaving exactly like the same patch without a due
date. -/
theorem C4_malformed_date_ignored (s : Store) (uid title : String)
    (d : Option String) (p : String) (tg : Option String) (ds : String)
    (now : PyDateTime) (huid : uid ≠ "") (hbad : parseDate ds = none) :
    (∃ s' r, add_task s uid title d p (some ds) tg now = Except.ok (s', r) ∧
       r.status = "success" ∧
       s'.tasks = s.tasks ++ [insertedTask s uid title d p none tg now]) ∧
    (∀ (s2 : Store) (ct : String) (t : Task) (nt dsc pr stt tgs : Option String),
       ct ≠ "" →
       s2.tasks.find? (fun x => x.user_id == uid && x.title == ct) = some t →
       update_task_by_title s2 uid ct nt dsc pr stt (some ds) tgs now
         = update_task_by_title s2 uid ct nt dsc pr stt none tgs now ∧
       (applyPatch t nt dsc pr stt (some ds) tgs now).due_date = t.due_date) := by
  constructor
  · unfold add_task
    rw [if_neg huid]
    refine ⟨_, _, rfl, rfl, ?_⟩
    by_cases hds : ds = "" <;> simp [hds, hbad, insertedTask]
  · intro s2 ct t nt dsc pr stt tgs hctne hfind2
    have e : applyPatch t nt dsc pr stt (some ds) tgs now
        = applyPatch t nt dsc pr stt none tgs now := by
      unfold applyPatch patchDate
      by_cases hds : ds = "" <;> simp [hds, hbad]
    constructor
    · rw [update_found s2 uid ct nt dsc pr stt (some ds) tgs now t huid hctne hfind2,
        update_found s2 uid ct nt dsc pr stt none tgs now t huid hctne hfind2, e]
    · rw [e]
      simp [applyPatch, patchDate]

/-- Witness for C4: `due_date = "not-a-date"` on Create stores a null due
date, and on Update leaves the sample task's due date unchanged. -/
theorem C4_malformed_date_ignored_witness :
    (∃ s' r, add_task sampleStore "u1" "new" none "medium" (some "not-a-date") none sampleNow
       = Except.ok (s', r) ∧
       r.status = "success" ∧
       s'.tasks = sampleStore.tasks
         ++ [insertedTask sampleStore "u1" "new" none "medium" none none sampleNow]) ∧
    (applyPatch sampleTask none none none none (some "not-a-date") none sampleNow).due_date
      = sampleTask.due_date := by
  obtain ⟨h1, h2⟩ := C4_malformed_date_ignored sampleStore "u1" "new" none "medium" none
    "not-a-date" sampleNow (by decide) (by decide)
  exact ⟨h1, (h2 sampleStore "groceries" sampleTask none none none none none
    (by decide) (by decide)).2⟩

/-- `isoformat` of a midnight timestamp is the padded date followed by the
literal `T00:00:00`. -/
theorem isoformat_midnight (y m d : Nat) :
    isoformat ⟨y, m, d, 0, 0, 0⟩
      = padNat 4 y ++ "-" ++ padNat 2 m ++ "-" ++ padNat 2 d ++ "T00:00:00" := by
  unfold isoformat
  simp only [String.append_assoc]
  rfl

/-- C7: any string the date parser accepts is stored as that calendar date
at midnight, and List renders it as the zero-padded date followed by
`T00:00:00`; a task without a due date renders as null. -/
theorem C7_due_date_roundtrip (s : Store) (uid title : String)
    (d tg : Option String) (p : String) (ds : String) (dte now : PyDateTime)
    (huid : uid ≠ "") (hds : parseDate ds = some dte) :
    dte.hour = 0 ∧ dte.minute = 0 ∧ dte.second = 0 ∧
    isoformat dte
      = padNat 4 dte.year ++ "-" ++ padNat 2 dte.month ++ "-" ++ padNat 2 dte.day
        ++ "T00:00:00" ∧
    (∃ s' r res, add_task s uid title d p (some ds) tg now = Except.ok (s', r) ∧
       s'.tasks = s.tasks ++ [insertedTask s uid title d p (some dte) tg now] ∧
       list_tasks s' uid none = Except.ok res ∧
       res.tasks.getLast?
         = some (serializeTask (insertedTask s uid title d p (some dte) tg now)) ∧
       (serializeTask (insertedTask s uid title d p (some dte) tg now)).due_date
         = some (isoformat dte)) ∧
    (∀ t : Task, t.due_date = none → (serializeTask t).due_date = none) := by
  obtain ⟨h0, h1, h2⟩ := parseDate_time_zero ds dte hds
  have hne : ds ≠ "" := by
    intro e
    rw [e] at hds
    cases hds
  have hiso : isoformat dte
      = padNat 4 dte.year ++ "-" ++ padNat 2 dte.month ++ "-" ++ padNat 2 dte.day
        ++ "T00:00:00" := by
    obtain ⟨y, mo, dy, hh, mi, se⟩ := dte
    simp only at h0 h1 h2
    subst h0 h1 h2
    exact isoformat_midnight y mo dy
  refine ⟨h0, h1, h2, hiso, ?_, ?_⟩
  · have hadd : add_task s uid title d p (some ds) tg now
        = Except.ok
            (Store.mk (s.tasks ++ [insertedTask s uid title d p (some dte) tg now])
              (s.nextId + 1),
             AddResult.mk "success" ("Task '" ++ title ++ "' added.")
               (TaskRef.mk (toString s.nextId) title "pending")) := by
      unfold add_task
      rw [if_neg huid]
      dsimp only
      rw [if_neg hne, hds]
      rfl
    refine ⟨_, _,
      ListResult.mk "success"
        (((s.tasks ++ [insertedTask s uid title d p (some dte) tg now]).filter
          (fun t => t.user_id == uid)).map serializeTask),
      hadd, rfl, ?_, ?_, rfl⟩
    · unfold list_tasks
      rw [if_neg huid]
    · dsimp only
      rw [List.filter_append, List.map_append]
      have hone : ([insertedTask s uid title d p (some dte) tg now]).filter
          (fun t => t.user_id == uid) = [insertedTask s uid title d p (some dte) tg now] := by
        simp [insertedTask]
      rw [hone]
      exact List.getLast?_concat _
  · intro t ht
    simp [serializeTask, ht]

/-- Witness for C7: `"2024-03-15"` parses to midnight 2024-03-15, is stored
on the created task, and List renders it back as exactly
`"2024-03-15T00:00:00"`. -/
theorem C7_due_date_roundtrip_witness :
    parseDate "2024-03-15" = some ⟨2024, 3, 15, 0, 0, 0⟩ ∧
    isoformat ⟨2024, 3, 15, 0, 0, 0⟩ = "2024-03-15T00:00:00" ∧
    ∃ s' r res,
      add_task sampleStore "u1" "trip" none "medium" (some "2024-03-15") none sampleNow
        = Except.ok (s', r) ∧
      list_tasks s' "u1" none = Except.ok res ∧
      res.tasks.getLast?
        = some (serializeTask (insertedTask sampleStore "u1" "trip" none "medium"
            (some ⟨2024, 3, 15, 0, 0, 0⟩) none sampleNow)) ∧
      (serializeTask (insertedTask sampleStore "u1" "trip" none "medium"
          (some ⟨2024, 3, 15, 0, 0, 0⟩) none sampleNow)).due_date
        = some "2024-03-15T00:00:00" := by
  obtain ⟨-, -, -, -, ⟨s', r, res, hadd, -, hlist, hlast, hdue⟩, -⟩ :=
    C7_due_date_roundtrip sampleStore "u1" "trip" none none "medium" "2024-03-15"
      ⟨2024, 3, 15, 0, 0, 0⟩ sampleNow (by decide) (by decide)
  refine ⟨by decide, by decide, s', r, res, hadd, hlist, hlast, ?_⟩
  rw [hdue]
  decide

/-- C8: Create validates only `user_id` — an empty title is inserted as-is
and reported as success, never rejected. -/
theorem C8_title_not_validated (s : Store) (uid : String) (d : Option String)
    (p : String) (dd tg : Option String) (now : PyDateTime) (huid : uid ≠ "") :
    ∃ s' r, add_task s uid "" d p dd tg now = Except.ok (s', r) ∧
      r.status = "success" ∧ r.task.title = "" ∧
      ∃ nt, s'.tasks = s.tasks ++ [nt] ∧ nt.title = "" ∧ nt.user_id = uid := by
  unfold add_task
  rw [if_neg huid]
  exact ⟨_, _, rfl, rfl, rfl, _, rfl, rfl, rfl⟩

/-- Witness for C8: creating a task with an empty title on the sample store
succeeds. -/
theorem C8_title_not_validated_witness :
    ∃ s' r, add_task sampleStore "u1" "" none "medium" none none sampleNow
        = Except.ok (s', r) ∧
      r.status = "success" ∧ r.task.title = "" ∧
      ∃ nt, s'.tasks = sampleStore.tasks ++ [nt] ∧ nt.title = "" ∧ nt.user_id = "u1" :=
  C8_title_not_validated sampleStore "u1" none "medium" none none sampleNow (by decide)

/-- C9: an update that supplies no optional field still succeeds, keeps
every data field (title and status included) and overwrites only
`updated_at` with the current time. -/
theorem C9_empty_patch_updates_timestamp (s : Store) (uid ct : String)
    (now : PyDateTime) (t : Task) (huid : uid ≠ "") (hct : ct ≠ "")
    (hfind : s.tasks.find? (fun x => x.user_id == uid && x.title == ct) = some t) :
    update_task_by_title s uid ct none none none none none none now
      = (patchedStore s uid ct { t with updated_at := some now },
         UpdateResult.success ("Task '" ++ ct ++ "' updated.") t.title) ∧
    ({ t with updated_at := some now }).updated_at = some now ∧
    ({ t with updated_at := some now }).title = t.title ∧
    ({ t with updated_at := some now }).status = t.status ∧
    ({ t with updated_at := some now }).description = t.description := by
  have h := update_found s uid ct none none none none none none now t huid hct hfind
  exact ⟨h, rfl, rfl, rfl, rfl⟩

/-- Witness for C9: the empty patch on the sample task refreshes its
`updated_at` and reports success with the unchanged title. -/
theorem C9_empty_patch_updates_timestamp_witness :
    update_task_by_title sampleStore "u1" "groceries" none none none none none none
        ⟨2025, 1, 2, 3, 4, 5⟩
      = (patchedStore sampleStore "u1" "groceries"
           { sampleTask with updated_at := some ⟨2025, 1, 2, 3, 4, 5⟩ },
         UpdateResult.success "Task 'groceries' updated." "groceries") := by
  have h := C9_empty_patch_updates_timestamp sampleStore "u1" "groceries"
    ⟨2025, 1, 2, 3, 4, 5⟩ sampleTask (by decide) (by decide) (by decide)
  exact h.1

/-- C10: a List record is a function of only the seven serialized fields —
`tags`, `updated_at` and `user_id` never reach the output — and every
record List returns is the serialization of some stored task. -/
theorem C10_list_record_projection (t : Task) (tg : Option String)
    (ua : Option PyDateTime) (u2 : String) (s : Store) (uid : String)
    (st : Option String) (huid : uid ≠ "") :
    serializeTask { t with tags := tg, updated_at := ua, user_id := u2 }
      = serializeTask t ∧
    (∀ res, list_tasks s uid st = Except.ok res →
      ∀ rec ∈ res.tasks, ∃ tk ∈ s.tasks, rec = serializeTask tk) := by
  constructor
  · rfl
  · intro res hres rec hrec
    unfold list_tasks at hres
    rw [if_neg huid] at hres
    cases st with
    | none =>
      dsimp only at hres
      cases hres
      dsimp only at hrec
      obtain ⟨tk, htk, rfl⟩ := List.mem_map.mp hrec
      exact ⟨tk, (List.mem_filter.mp htk).1, rfl⟩
    | some v =>
      dsimp only at hres
      cases hres
      dsimp only at hrec
      obtain ⟨tk, htk, rfl⟩ := List.mem_map.mp hrec
      split at htk
      · have h1 := (List.mem_filter.mp htk).1
        exact ⟨tk, (List.mem_filter.mp h1).1, rfl⟩
      · exact ⟨tk, (List.mem_filter.mp htk).1, rfl⟩

/-- Witness for C10: the sample task's record ignores its `tags`,
`updated_at` and `user_id`, and List on the sample store returns only
serializations of stored tasks. -/
theorem C10_list_record_projection_witness :
    serializeTask { sampleTask with tags := some "x", updated_at := none, user_id := "zzz" }
      = serializeTask sampleTask ∧
    ∃ tk ∈ sampleStore.tasks, serializeTask sampleTask = serializeTask tk := by
  have h := C10_list_record_projection sampleTask (some "x") none "zzz"
    sampleStore "u1" none (by decide)
  refine ⟨h.1, ?_⟩
  refine h.2 (ListResult.mk "success"
      ((sampleStore.tasks.filter (fun t => t.user_id == "u1")).map serializeTask))
    ?_ (serializeTask sampleTask) ?_
  · rfl
  · decide

end TaskStore
